import Mathlib

/-!
Verification of the extension-point registry mechanism used by the
`tutor-contrib-event-bus-redis` add-on (source: `tutorevent_bus_redis/plugin.py`).

The add-on pushes contributions into named extension points of the host
orchestrator (`tutor.hooks.Filters`): configuration defaults, template roots
and targets, environment patches, init tasks and image descriptors.  The
plugin's own data and its two loader loops (the `MY_INIT_TASKS` loop and the
`ENV_PATCHES` glob loop) are embedded here directly from the source.  The
host-owned registry (item stores, `register`, the merge pass and the sealing
state machine) is not part of this repository's sources, so those pieces are
modelled from the specification's consumed-contract sections and are marked
as such in their doc comments.
-/

namespace TutorPlugin

/-- File-system paths are modelled as lists of path components.
`os.path.join(dir, name)` appends one component; `os.path.basename` takes the
last component of a path. -/
abbrev OsPath := List String

/-- Embeds `os.path.join(dir, name)` for a directory and a single trailing
component, as used by the patch-loading glob loop. -/
def os_path_join (dir : OsPath) (name : String) : OsPath := dir ++ [name]

/-- Embeds `os.path.basename(path)`: the last path component. -/
def os_path_basename (p : OsPath) : String := p.getLast?.getD ""

/-- Embeds `pkg_resources.resource_filename(pkg, rel)`: the absolute location
of a bundled resource, namely the installed package root followed by the
relative path. -/
def resource_filename (pkg : String) (rel : List String) : OsPath := pkg :: rel

/-- The values contributed to configuration extension points by this plugin:
strings, booleans, integers, or lists of strings (the pip-requirements
value). -/
inductive ConfigValue
  | str (s : String)
  | bool (b : Bool)
  | int (n : Int)
  | strList (l : List String)
  deriving DecidableEq

/-- The `PRODUCER_CONFIG` string literal from `plugin.py` (braces and
apostrophes written as hex escapes). -/
def PRODUCER_CONFIG : String :=
  "\x7b\n" ++
  "    \x27org.openedx.content_authoring.xblock.published.v1\x27: \x7b\n" ++
  "        \x27content-authoring-xblock-lifecycle\x27:\n" ++
  "        \x7b\x27event_key_field\x27: \x27xblock_info.usage_key\x27, \x27enabled\x27: False\x7d,\n" ++
  "    \x27content-authoring-xblock-published\x27:\n" ++
  "        \x7b\x27event_key_field\x27: \x27xblock_info.usage_key\x27, \x27enabled\x27: False\x7d,\n" ++
  "    \x7d,\n" ++
  "    \x27org.openedx.content_authoring.xblock.deleted.v1\x27: \x7b\n" ++
  "        \x27content-authoring-xblock-lifecycle\x27:\n" ++
  "        \x7b\x27event_key_field\x27: \x27xblock_info.usage_key\x27, \x27enabled\x27: False\x7d,\n" ++
  "    \x7d,\n" ++
  "    \x27org.openedx.learning.auth.session.login.completed.v1\x27: \x7b\n" ++
  "        \x27user-login\x27: \x7b\x27event_key_field\x27: \x27user.pii.username\x27, \x27enabled\x27: True\x7d,\n" ++
  "    \x7d,\n" ++
  "\x7d\n"

/-- The list passed to `hooks.Filters.CONFIG_DEFAULTS.add_items` in
`plugin.py`, parameterised by the `__version__` string imported from
`tutorevent_bus_redis/__about__.py` (that file is not among the sources). -/
def CONFIG_DEFAULTS (version : String) : List (String × ConfigValue) :=
  [ ("EVENT_BUS_REDIS_VERSION", .str version),
    ("EVENT_BUS_BACKEND", .str "kafka"),
    ("EVENT_BUS_SEND_CATALOG_INFO_SIGNAL", .bool true),
    ("OPENEDX_EXTRA_PIP_REQUIREMENTS",
      .strList
        [ "edx-event-bus-redis==0.3.2",
          "edx-event-bus-kafka==v5.6.0",
          "openedx-events==v9.5.1",
          "confluent_kafka[avro,schema-registry]" ]),
    ("EVENT_BUS_PRODUCER_CONFIG", .str PRODUCER_CONFIG),
    ("EVENT_BUS_REDIS_RELEASE", .str "edx-event-bus-redis==\x270.3.2\x27"),
    ("EVENT_BUS_REDIS_TOPIC_PREFIX", .str "openedx"),
    ("EVENT_BUS_REDIS_PRODUCER", .str "edx_event_bus_redis.create_producer"),
    ("EVENT_BUS_REDIS_CONSUMER", .str "edx_event_bus_redis.RedisEventConsumer"),
    ("EVENT_BUS_REDIS_CONSUMER_CONSECUTIVE_ERRORS_LIMIT", .int 0),
    ("EVENT_BUS_REDIS_CONSUMER_POLL_TIMEOUT", .int 60),
    ("EVENT_BUS_REDIS_STREAM_MAX_LEN", .int 10000),
    ("EVENT_BUS_KAFKA_RELEASE", .str "edx-event-bus-kafka==\x27v5.6.0\x27"),
    ("RUN_KAFKA_SERVER", .bool true),
    ("RUN_KAFKA_UI", .bool true),
    ("EVENT_BUS_KAFKA_SCHEMA_REGISTRY_URL", .str "http://schema-registry:18081"),
    ("EVENT_BUS_KAFKA_BOOTSTRAP_SERVERS", .str "kafka:29092"),
    ("EVENT_BUS_KAFKA_PRODUCER", .str "edx_event_bus_kafka.create_producer"),
    ("EVENT_BUS_KAFKA_CONSUMER", .str "edx_event_bus_kafka.KafkaEventConsumer"),
    ("EVENT_BUS_KAFKA_TOPIC_PREFIX", .str "dev") ]

/-- Modelled from the spec: the host-owned merge pass for override-by-key
extension points (the host orchestrator's merge implementation is not among
this repository's sources).  Contributions are iterated in registration
order and each later contribution with the same key replaces the earlier
one, yielding one effective value per key. -/
def mergeOverrideByKey {α : Type} (contribs : List (String × α)) : String → Option α :=
  contribs.foldl (fun m kv => fun k => if k = kv.1 then some kv.2 else m k)
    (fun _ => none)

/-- The value of the last contribution registered for key `k`, if any:
the first hit when scanning the contribution list backwards. -/
def lastValueFor {α : Type} (contribs : List (String × α)) (k : String) : Option α :=
  (contribs.reverse.find? fun kv => kv.1 == k).map Prod.snd

theorem mergeOverrideByKey_foldl {α : Type} (l : List (String × α))
    (acc : String → Option α) (k : String) :
    l.foldl (fun m kv => fun k => if k = kv.1 then some kv.2 else m k) acc k =
      match l.reverse.find? (fun kv => kv.1 == k) with
      | some kv => some kv.2
      | none => acc k := by
  induction l using List.reverseRecOn generalizing k with
  | nil => simp
  | append_singleton xs x ih =>
    rw [List.foldl_append]
    simp only [List.foldl_cons, List.foldl_nil, List.reverse_append,
      List.reverse_singleton, List.singleton_append, List.find?_cons]
    by_cases hk : k = x.1
    · simp [hk]
    · have : (x.1 == k) = false := by
        simp [beq_iff_eq]
        exact fun h => hk h.symm
      simp [if_neg hk, this, ih]

/-- The merged mapping agrees with the last registered value on every key. -/
theorem mergeOverrideByKey_eq_lastValueFor {α : Type}
    (l : List (String × α)) (k : String) :
    mergeOverrideByKey l k = lastValueFor l k := by
  rw [mergeOverrideByKey, mergeOverrideByKey_foldl, lastValueFor]
  cases l.reverse.find? (fun kv => kv.1 == k) <;> simp

/-- C1: for every override-by-key extension point and all registration
orders, the merged mapping holds, for each key, the value of the last
contribution registered for that key; in particular, after this plugin
registers its `CONFIG_DEFAULTS` (which set `EVENT_BUS_BACKEND` to "kafka")
and a later add-on registers `EVENT_BUS_BACKEND = "redis"`, the effective
configuration maps `EVENT_BUS_BACKEND` to "redis". -/
theorem c1_override_by_key_last_write_wins :
    (∀ (l : List (String × ConfigValue)) (k : String),
        mergeOverrideByKey l k = lastValueFor l k) ∧
    (∀ version : String,
        mergeOverrideByKey
            (CONFIG_DEFAULTS version ++ [("EVENT_BUS_BACKEND", ConfigValue.str "redis")])
            "EVENT_BUS_BACKEND" =
          some (ConfigValue.str "redis")) := by
  constructor
  · exact fun l k => mergeOverrideByKey_eq_lastValueFor l k
  · intro version
    rw [mergeOverrideByKey_eq_lastValueFor]
    rw [lastValueFor, List.reverse_append]
    simp

/-- The error taxonomy of the registration mechanism, from the spec's error
handling design: unrecognized extension point, missing required bundled
resource, contribution after sealing. -/
inductive RegError
  | configurationError
  | resourceResolutionError
  | lateRegistrationError
  deriving DecidableEq

/-- Modelled from the spec: the fixed, closed set of extension point names
known to the host registry (the names this plugin's registration code
touches, plus the job and CLI command points described alongside them). -/
def knownPoints : List String :=
  [ "CONFIG_DEFAULTS", "CONFIG_UNIQUE", "CONFIG_OVERRIDES",
    "CLI_DO_INIT_TASKS", "IMAGES_BUILD", "IMAGES_PULL", "IMAGES_PUSH",
    "ENV_TEMPLATE_ROOTS", "ENV_TEMPLATE_TARGETS", "ENV_PATCHES",
    "CLI_DO_COMMANDS", "CLI_COMMANDS" ]

/-- Modelled from the spec: the host's per-point Item Stores, one ordered
sequence of contributions per extension point name.  The payload type is a
parameter because each point carries its own payload shape. -/
structure Stores (α : Type) where
  contents : String → List α

/-- Embeds `ItemStore.add` / `Filters.add_item` semantics: append one
contribution at the end of a store's sequence. -/
def add_item {α : Type} (store : List α) (item : α) : List α := store ++ [item]

/-- Embeds `Filters.add_items` semantics: append a sequence of contributions
in the order passed. -/
def add_items {α : Type} (store : List α) (items : List α) : List α := store ++ items

/-- Modelled from the spec: the Contribution API.  `register` resolves a
point name to its Item Store and appends each contribution in order; an
unknown point name fails with `ConfigurationError` and no store changes. -/
def register {α : Type} (point : String) (items : List α) (s : Stores α) :
    Except RegError (Stores α) :=
  if point ∈ knownPoints then
    Except.ok ⟨fun n => if n = point then add_items (s.contents n) items else s.contents n⟩
  else
    Except.error RegError.configurationError

/-- A sequence of `register` calls, performed left to right; the first
failure aborts the remainder. -/
def registerMany {α : Type} :
    List (String × List α) → Stores α → Except RegError (Stores α)
  | [], s => Except.ok s
  | (point, items) :: rest, s =>
    match register point items s with
    | Except.error e => Except.error e
    | Except.ok s' => registerMany rest s'

/-- Modelled from the spec: the process-wide registration phase.  After the
transition to `sealedPhase` the host performs the merge, and no contribution
may be added. -/
inductive Phase
  | registering
  | sealedPhase
  deriving DecidableEq

/-- Modelled from the spec: the whole-process state, the current phase plus
every Item Store. -/
structure ProcState (α : Type) where
  phase : Phase
  stores : Stores α

/-- Modelled from the spec: an `add` call as seen by the process state
machine — rejected with `LateRegistrationError` once sealed, otherwise a
plain `register`. -/
def procAdd {α : Type} (st : ProcState α) (point : String) (items : List α) :
    Except RegError (ProcState α) :=
  match st.phase with
  | Phase.sealedPhase => Except.error RegError.lateRegistrationError
  | Phase.registering =>
    match register point items st.stores with
    | Except.error e => Except.error e
    | Except.ok s' => Except.ok ⟨Phase.registering, s'⟩

/-- Modelled from the spec: the process transition relation — a successful
add during registration, or the single registering-to-sealed transition. -/
inductive ProcStep {α : Type} : ProcState α → ProcState α → Prop
  | add (st st' : ProcState α) (point : String) (items : List α) :
      procAdd st point items = Except.ok st' → ProcStep st st'
  | seal (st : ProcState α) :
      st.phase = Phase.registering → ProcStep st ⟨Phase.sealedPhase, st.stores⟩

/-- The empty list passed to `hooks.Filters.CONFIG_UNIQUE.add_items` in
`plugin.py` (the section holds only commented examples). -/
def CONFIG_UNIQUE_ITEMS : List (String × ConfigValue) := []

/-- The empty list passed to `hooks.Filters.CONFIG_OVERRIDES.add_items` in
`plugin.py` (the section holds only commented examples). -/
def CONFIG_OVERRIDES_ITEMS : List (String × ConfigValue) := []

/-- The empty list passed to `hooks.Filters.IMAGES_BUILD.add_items` in
`plugin.py`: quadruples (image name, build dir path, tag, build args). -/
def IMAGES_BUILD_ITEMS : List (String × OsPath × String × List String) := []

/-- The empty list passed to `hooks.Filters.IMAGES_PULL.add_items` in
`plugin.py`: pairs (image name, tag). -/
def IMAGES_PULL_ITEMS : List (String × String) := []

/-- The empty list passed to `hooks.Filters.IMAGES_PUSH.add_items` in
`plugin.py`: pairs (image name, tag). -/
def IMAGES_PUSH_ITEMS : List (String × String) := []

/-- The `MY_INIT_TASKS` list from `plugin.py`: empty, only a commented
example entry. -/
def MY_INIT_TASKS : List (String × List String) := []

/-- Embeds the `MY_INIT_TASKS` loop of `plugin.py`, tracking the store as
Python's global hook state: for each `(service, template_path)` the loop
resolves `templates/<template_path>` inside the installed package, opens and
reads it, then calls `CLI_DO_INIT_TASKS.add_item((service, content))`.  A
missing file makes `open` raise before anything is added for that entry; the
pair returned is the store at that moment together with the error, `none`
when the whole loop succeeds.  `fs` maps an absolute path to the content of
the file there, `none` when no such file exists. -/
def loadInitTasksPartial (tasks : List (String × List String))
    (fs : OsPath → Option String) (store : List (String × String)) :
    List (String × String) × Option RegError :=
  match tasks with
  | [] => (store, none)
  | (service, template_path) :: rest =>
    match fs (resource_filename "tutorevent_bus_redis" ("templates" :: template_path)) with
    | none => (store, some RegError.resourceResolutionError)
    | some init_task =>
      loadInitTasksPartial rest fs (add_item store (service, init_task))

/-- The bundled patches directory as the operating system exposes it: `none`
when the directory does not exist, otherwise the files as (filename,
content) pairs in directory-listing order.  Python's `glob` enumerates in
this order; it does not sort. -/
def PatchesDir := Option (List (String × String))

/-- Embeds the `ENV_PATCHES` glob loop of `plugin.py`: for each path matched
by `glob(os.path.join(<patches dir>, "*"))`, in directory-listing order,
open the file, read its full content, and
`ENV_PATCHES.add_item((os.path.basename(path), content))`.  A missing
directory matches nothing. -/
def loadPatches (dir : OsPath) (d : PatchesDir) (store : List (String × String)) :
    List (String × String) :=
  match d with
  | none => store
  | some files =>
    files.foldl
      (fun st f => add_item st (os_path_basename (os_path_join dir f.1), f.2)) store

/-- Resolving and reading one patch file by name, directly against the
directory: the content of the unique file with that filename. -/
def readPatchFile (d : PatchesDir) (name : String) : Option String :=
  match d with
  | none => none
  | some files => (files.find? fun f => f.1 == name).map Prod.snd

theorem os_path_basename_join (dir : OsPath) (name : String) :
    os_path_basename (os_path_join dir name) = name := by
  simp [os_path_basename, os_path_join, List.getLast?_concat]

theorem loadPatches_map (dir : OsPath) (files : List (String × String))
    (store : List (String × String)) :
    loadPatches dir (some files) store =
      store ++ files.map (fun f => (os_path_basename (os_path_join dir f.1), f.2)) := by
  induction files generalizing store with
  | nil => simp [loadPatches]
  | cons f fs ih =>
    simp only [loadPatches, List.foldl_cons, List.map_cons] at *
    rw [ih, add_item, List.append_assoc, List.singleton_append]

theorem loadPatches_eq (dir : OsPath) (files : List (String × String))
    (store : List (String × String)) :
    loadPatches dir (some files) store = store ++ files := by
  rw [loadPatches_map]
  congr 1
  refine List.map_congr_left ?_ |>.trans (List.map_id files)
  intro f _
  rw [os_path_basename_join]
  rfl

/-- C8: the glob loop pushes exactly one contribution per matched file into
the patches store, whose first component is the basename of the file's path
and whose second component is the file's full content, already read at
registration time (the contribution carries the content itself, not the
path). -/
theorem c8_one_contribution_per_file (dir : OsPath)
    (files : List (String × String)) (store : List (String × String)) :
    loadPatches dir (some files) store =
      store ++ files.map (fun f => (os_path_basename (os_path_join dir f.1), f.2)) ∧
    loadPatches dir (some files) store = store ++ files ∧
    (loadPatches dir (some files) store).length = store.length + files.length := by
  refine ⟨loadPatches_map dir files store, loadPatches_eq dir files store, ?_⟩
  rw [loadPatches_eq, List.length_append]

/-- C2 (as stated, refuted): the glob loop does not sort.  A patches
directory containing exactly `a.yml` and `b.yml` whose directory listing
enumerates `b.yml` first produces the store `[(b.yml, …), (a.yml, …)]`,
which is not in filename-sorted order. -/
theorem c2_counterexample :
    loadPatches ["tutorevent_bus_redis", "patches"]
        (some [("b.yml", "patch b"), ("a.yml", "patch a")]) [] =
      [("b.yml", "patch b"), ("a.yml", "patch a")] ∧
    [("b.yml", "patch b"), ("a.yml", "patch a")] ≠
      [("a.yml", "patch a"), ("b.yml", "patch b")] := by
  exact ⟨rfl, by decide⟩

/-- C2 (amended): the glob loop registers one contribution per matching
file in directory-listing order (Python's `glob` does not sort); in
particular, for a directory whose listing is `a.yml` then `b.yml`, the
patches store afterwards contains exactly those two entries in that
order. -/
theorem c2_listing_order (dir : OsPath) (ca cb : String) :
    (∀ (files store : List (String × String)),
        loadPatches dir (some files) store = store ++ files) ∧
    loadPatches dir (some [("a.yml", ca), ("b.yml", cb)]) [] =
      [("a.yml", ca), ("b.yml", cb)] := by
  refine ⟨fun files store => loadPatches_eq dir files store, ?_⟩
  rw [loadPatches_eq]
  rfl

/-- C5: a missing patches directory, or an empty one, makes the glob match
nothing: registration succeeds and contributes zero items to the patches
store, with no error raised (the loader is a total function). -/
theorem c5_missing_directory_zero_contributions (dir : OsPath)
    (store : List (String × String)) :
    loadPatches dir none store = store ∧ loadPatches dir (some []) store = store :=
  ⟨rfl, rfl⟩

/-- C10: the plugin passes empty lists to the CONFIG_UNIQUE,
CONFIG_OVERRIDES, IMAGES_BUILD, IMAGES_PULL and IMAGES_PUSH extension
points, so after its registration those five stores are exactly as they
were before it ran; in particular it forces no override of any other
add-on's configuration key. -/
theorem c10_empty_frame :
    ∀ (su so : List (String × ConfigValue))
      (sb : List (String × OsPath × String × List String))
      (spl sps : List (String × String)),
      add_items su CONFIG_UNIQUE_ITEMS = su ∧
      add_items so CONFIG_OVERRIDES_ITEMS = so ∧
      add_items sb IMAGES_BUILD_ITEMS = sb ∧
      add_items spl IMAGES_PULL_ITEMS = spl ∧
      add_items sps IMAGES_PUSH_ITEMS = sps := by
  intro su so sb spl sps
  refine ⟨?_, ?_, ?_, ?_, ?_⟩ <;>
    simp [add_items, CONFIG_UNIQUE_ITEMS, CONFIG_OVERRIDES_ITEMS,
      IMAGES_BUILD_ITEMS, IMAGES_PULL_ITEMS, IMAGES_PUSH_ITEMS]

theorem register_known {α : Type} (point : String) (hp : point ∈ knownPoints)
    (items : List α) (s : Stores α) :
    register point items s =
      Except.ok ⟨fun n => if n = point then add_items (s.contents n) items
                 else s.contents n⟩ := by
  simp [register, hp]

theorem registerMany_join {α : Type} (point : String) (hp : point ∈ knownPoints)
    (contribs : List (List α)) (s : Stores α) :
    ∃ s', registerMany (contribs.map fun c => (point, c)) s = Except.ok s' ∧
      s'.contents point = s.contents point ++ contribs.flatten := by
  induction contribs generalizing s with
  | nil => exact ⟨s, rfl, by simp⟩
  | cons c cs ih =>
    obtain ⟨s', h1, h2⟩ :=
      ih ⟨fun n => if n = point then add_items (s.contents n) c else s.contents n⟩
    refine ⟨s', ?_, ?_⟩
    · rw [List.map_cons, registerMany, register_known point hp c s]
      exact h1
    · rw [h1] at *
      rw [h2]
      simp [add_items]

/-- C3: for ordered-append extension points, a run of `register` calls into
the same point yields the store holding its previous contents followed by
the concatenation of every contributed sequence in registration order, its
length being the previous length plus the sum of the per-call contribution
counts; each call's items appear in exactly the order passed. -/
theorem c3_append_order {α : Type} (point : String) (hp : point ∈ knownPoints)
    (contribs : List (List α)) (s : Stores α) :
    ∃ s', registerMany (contribs.map fun c => (point, c)) s = Except.ok s' ∧
      s'.contents point = s.contents point ++ contribs.flatten ∧
      (s'.contents point).length =
        (s.contents point).length + (contribs.map List.length).sum := by
  obtain ⟨s', h1, h2⟩ := registerMany_join point hp contribs s
  refine ⟨s', h1, h2, ?_⟩
  rw [h2, List.length_append, List.length_flatten]

/-- Witness for C3 at the template-roots point and the two contributions of
the spec's Scenario D. -/
theorem c3_append_order_witness :
    ("ENV_TEMPLATE_ROOTS" ∈ knownPoints) ∧
    (∃ s' : Stores String,
      registerMany
          ([["pluginA/templates"], ["pluginB/templates"]].map
            fun c => ("ENV_TEMPLATE_ROOTS", c))
          (Stores.mk fun _ => []) = Except.ok s' ∧
      s'.contents "ENV_TEMPLATE_ROOTS" =
        (Stores.mk fun _ => ([] : List String)).contents "ENV_TEMPLATE_ROOTS" ++
          [["pluginA/templates"], ["pluginB/templates"]].flatten ∧
      (s'.contents "ENV_TEMPLATE_ROOTS").length =
        ((Stores.mk fun _ => ([] : List String)).contents
            "ENV_TEMPLATE_ROOTS").length +
          ([["pluginA/templates"], ["pluginB/templates"]].map List.length).sum) :=
  ⟨by decide, c3_append_order "ENV_TEMPLATE_ROOTS" (by decide) _ _⟩

/-- C4: when the bundled script named by an entry of the init-task mapping
does not exist, the loop fails at that entry with the resource-resolution
error before adding anything for it: the `CLI_DO_INIT_TASKS` store is
exactly what it was before the failed entry, so no init-task contribution
for that service is added. -/
theorem c4_missing_init_task (service : String) (template_path : List String)
    (rest : List (String × List String)) (fs : OsPath → Option String)
    (store : List (String × String))
    (h : fs (resource_filename "tutorevent_bus_redis"
          ("templates" :: template_path)) = none) :
    loadInitTasksPartial ((service, template_path) :: rest) fs store =
      (store, some RegError.resourceResolutionError) := by
  rw [loadInitTasksPartial, h]

/-- Witness for C4 at the spec's Scenario C: service "lms", a script path
absent from the bundled resource tree, empty store. -/
theorem c4_missing_init_task_witness :
    ((fun _ : OsPath => (none : Option String))
        (resource_filename "tutorevent_bus_redis"
          ("templates" :: ["event-bus-redis", "jobs", "init", "lms.sh"])) =
      none) ∧
    loadInitTasksPartial
        [("lms", ["event-bus-redis", "jobs", "init", "lms.sh"])]
        (fun _ => none) [] =
      ([], some RegError.resourceResolutionError) :=
  ⟨rfl, c4_missing_init_task "lms" ["event-bus-redis", "jobs", "init", "lms.sh"]
    [] (fun _ => none) [] rfl⟩

/-- C6: registering into a point name outside the fixed set of known
extension points fails with `ConfigurationError` and never produces any
updated stores, for every contribution sequence and every starting store
state. -/
theorem c6_unknown_point {α : Type} (point : String) (h : point ∉ knownPoints)
    (items : List α) (s : Stores α) :
    register point items s = Except.error RegError.configurationError ∧
    ∀ s', register point items s ≠ Except.ok s' := by
  have hreg : register point items s = Except.error RegError.configurationError := by
    simp [register, h]
  exact ⟨hreg, fun s' hok => by rw [hreg] at hok; exact Except.noConfusion hok⟩

/-- Witness for C6 at a concrete unknown point name. -/
theorem c6_unknown_point_witness :
    ("NOT_AN_EXTENSION_POINT" ∉ knownPoints) ∧
    (register "NOT_AN_EXTENSION_POINT" ["x"]
        (Stores.mk fun _ => ([] : List String)) =
      Except.error RegError.configurationError ∧
    ∀ s', register "NOT_AN_EXTENSION_POINT" ["x"]
        (Stores.mk fun _ => ([] : List String)) ≠ Except.ok s') :=
  ⟨by decide, c6_unknown_point "NOT_AN_EXTENSION_POINT" (by decide) _ _⟩

/-- C7: in any process state whose phase is sealed, every `add` call on any
store is rejected with `LateRegistrationError`, and no transition at all
leaves a sealed state — so the stores' contents are unchanged by the
rejected call and no contribution is ever added after sealing. -/
theorem c7_sealed_rejects {α : Type} (st : ProcState α)
    (h : st.phase = Phase.sealedPhase) (point : String) (items : List α) :
    procAdd st point items = Except.error RegError.lateRegistrationError ∧
    ∀ st', ¬ ProcStep st st' := by
  obtain ⟨ph, ss⟩ := st
  simp only at h
  subst h
  refine ⟨rfl, fun st' hstep => ?_⟩
  cases hstep <;> simp_all [procAdd]

/-- Witness for C7 at a concrete sealed state. -/
theorem c7_sealed_rejects_witness :
    ((ProcState.mk Phase.sealedPhase
        (Stores.mk fun _ => ([] : List String))).phase = Phase.sealedPhase) ∧
    (procAdd (ProcState.mk Phase.sealedPhase
          (Stores.mk fun _ => ([] : List String))) "ENV_PATCHES" ["x"] =
        Except.error RegError.lateRegistrationError ∧
    ∀ st', ¬ ProcStep (ProcState.mk Phase.sealedPhase
        (Stores.mk fun _ => ([] : List String))) st') :=
  ⟨rfl, c7_sealed_rejects _ rfl "ENV_PATCHES" ["x"]⟩

theorem readPatchFile_of_mem (files : List (String × String))
    (h : (files.map Prod.fst).Nodup) (f : String × String) (hf : f ∈ files) :
    readPatchFile (some files) f.1 = some f.2 := by
  induction files with
  | nil => cases hf
  | cons g gs ih =>
    rw [List.map_cons, List.nodup_cons] at h
    rw [readPatchFile, List.find?_cons]
    by_cases hg : g.1 = f.1
    · have hfg : f = g := by
        cases hf with
        | head => rfl
        | tail _ hmem =>
          exact absurd (hg ▸ List.mem_map_of_mem Prod.fst hmem) h.1
      rw [hfg, show (g.1 == g.1) = true by simp]
      rfl
    · have hne : (g.1 == f.1) = false := by simp [hg]
      rw [hne]
      have hfs : f ∈ gs := by
        cases hf with
        | head => exact absurd rfl hg
        | tail _ hmem => exact hmem
      exact ih h.2 hfs

/-- C9: resource resolution is deterministic within one process.  The
content the glob loop pairs with a patch file at registration time and the
content a second, independent resolve-and-read of the same Resource
Reference returns are both exactly the file's bytes, so any two reads of
the same reference in the same process agree. -/
theorem c9_idempotent_resolution (dir : OsPath) (files : List (String × String))
    (h : (files.map Prod.fst).Nodup) (f : String × String) (hf : f ∈ files) :
    readPatchFile (some files) f.1 = some f.2 ∧
    (os_path_basename (os_path_join dir f.1), f.2) ∈ loadPatches dir (some files) [] := by
  refine ⟨readPatchFile_of_mem files h f hf, ?_⟩
  rw [loadPatches_map, List.nil_append]
  exact List.mem_map_of_mem _ hf

/-- Witness for C9 at a concrete one-file patches directory. -/
theorem c9_idempotent_resolution_witness :
    (([("a.yml", "patch a")].map Prod.fst).Nodup ∧
      ("a.yml", "patch a") ∈ [("a.yml", "patch a")]) ∧
    (readPatchFile (some [("a.yml", "patch a")]) "a.yml" = some "patch a" ∧
      (os_path_basename (os_path_join ["tutorevent_bus_redis", "patches"] "a.yml"),
          "patch a") ∈
        loadPatches ["tutorevent_bus_redis", "patches"]
          (some [("a.yml", "patch a")]) []) :=
  ⟨⟨by decide, by decide⟩,
    c9_idempotent_resolution ["tutorevent_bus_redis", "patches"]
      [("a.yml", "patch a")] (by decide) ("a.yml", "patch a") (by decide)⟩

end TutorPlugin
